import Mathlib

/-!
Verification development for the document_verification_system repository.

The Python core (verifier/normalize/cleaners.py, verifier/normalize/normalizers.py,
verifier/verify/rules.py, plus the overall-status recomputation in run_pipeline.py)
is shallowly embedded below.  Python strings are Lean `String`s (manipulated through
their `List Char` data to keep every definition kernel-computable), Python `None` is
`Option.none`, Python dicts are association lists in insertion order with unique keys
(as `dict.items()` yields them), and a Python function that can raise is embedded
with an `Except` result.
-/

namespace DocVerify

/-! ## Python string primitives -/

/-- Python `str.strip()` (whitespace from both ends) on character lists. -/
def pyStripL (l : List Char) : List Char :=
  ((l.dropWhile Char.isWhitespace).reverse.dropWhile Char.isWhitespace).reverse

/-- Python `str.strip()` on strings. -/
def pyStrip (s : String) : String := ⟨pyStripL s.data⟩

/-- Python `str.lower()` (ASCII input domain). -/
def pyLower (s : String) : String := ⟨s.data.map Char.toLower⟩

/-- Helper for `pySplit`: accumulates the current (reversed) token. -/
def splitWSAux : List Char → List Char → List String
  | [], [] => []
  | [], cur => [⟨cur.reverse⟩]
  | c :: rest, cur =>
    if c.isWhitespace then
      match cur with
      | [] => splitWSAux rest []
      | _ => ⟨cur.reverse⟩ :: splitWSAux rest []
    else splitWSAux rest (c :: cur)

/-- Python `str.split()` with no separator: split on whitespace runs, dropping
empty pieces. -/
def pySplit (s : String) : List String := splitWSAux s.data []

/-- `' '.join(parts)`. -/
def joinSpace : List String → String
  | [] => ""
  | [x] => x
  | x :: xs => x ++ " " ++ joinSpace xs

/-- `', '.join(parts)`. -/
def joinCommaSpace : List String → String
  | [] => ""
  | [x] => x
  | x :: xs => x ++ ", " ++ joinCommaSpace xs

/-- `'; '.join(parts)`. -/
def joinSemi : List String → String
  | [] => ""
  | [x] => x
  | x :: xs => x ++ "; " ++ joinSemi xs

/-- `clean_whitespace` (cleaners.py:120): `re.sub(r'\s+', ' ', text).strip()`,
i.e. collapse every whitespace run to a single space and strip the ends.  This
equals joining the whitespace-separated tokens with single spaces. -/
def cleanWhitespace (s : String) : String := joinSpace (pySplit s)

/-- Python `s.startswith(pre)`. -/
def pyStartsWith (pre s : String) : Bool := s.data.take pre.data.length == pre.data

/-- Python `s.isdigit()` (ASCII digits): nonempty and all digits. -/
def pyIsDigits (s : String) : Bool := !s.data.isEmpty && s.data.all Char.isDigit

/-- Python `s.isalpha()` (ASCII letters): nonempty and all alphabetic. -/
def pyIsAlpha (s : String) : Bool := !s.data.isEmpty && s.data.all Char.isAlpha

/-- Numeric value of an all-digit character list (`int(p)` on digit strings). -/
def digitsToNat (l : List Char) : Nat := l.foldl (fun a c => a * 10 + (c.toNat - 48)) 0

/-- Python `s.zfill(n)` for the sign-free strings produced by the date parser:
left-pad with `'0'` to length `n`. -/
def zfill (n : Nat) (s : String) : String :=
  if n ≤ s.data.length then s else ⟨List.replicate (n - s.data.length) '0' ++ s.data⟩

/-! ## Confusion corrector (cleaners.py) -/

/-- Python `text.replace(a, b)` for a single-character needle `a`. -/
def replaceChar (a : Char) (b : List Char) : List Char → List Char
  | [] => []
  | c :: rest => (if c = a then b else [c]) ++ replaceChar a b rest

/-- Apply a list of `str.replace` substitutions in order (mirrors iterating the
Python correction dict in insertion order). -/
def applyReplacements (m : List (Char × List Char)) (l : List Char) : List Char :=
  m.foldl (fun acc p => replaceChar p.1 p.2 acc) l

/-- `CONFUSION_MAP` (cleaners.py:12), in dict insertion order. -/
def confusionMap : List (Char × List Char) :=
  [('O', ['0']), ('o', ['0']), ('S', ['5']), ('s', ['5']),
   ('I', ['1']), ('l', ['1']), ('B', ['8']), ('Z', ['2']), (' ', [])]

/-- `REVERSE_CONFUSION_MAP` (cleaners.py:21). -/
def reverseConfusionMap : List (Char × List Char) :=
  [('0', ['O']), ('5', ['S']), ('1', ['I']), ('8', ['B']), ('2', ['Z'])]

/-- The conservative correction table used for `alphanumeric`/unknown hints
(cleaners.py:109). -/
def defaultMap : List (Char × List Char) :=
  [('O', ['0']), ('l', ['1']), ('I', ['1'])]

/-- `correct_text` (cleaners.py:81).  `text` is `Option String` so that Python
`None` input is representable; `not text` is false exactly for `None` and `""`. -/
def correct_text (text : Option String) (field_hint : Option String) : Option String :=
  match text with
  | none => none
  | some s =>
    if s = "" then some s
    else if field_hint = some "numeric" then some ⟨applyReplacements confusionMap s.data⟩
    else if field_hint = some "alpha" then some ⟨applyReplacements reverseConfusionMap s.data⟩
    else some ⟨applyReplacements defaultMap s.data⟩

/-! Spec-side (claim C8) character-wise substitution maps.  These three
definitions follow the spec's wording — "for hint=numeric the forward map
O,o→0; S,s→5; I,l→1; B→8; Z→2; space removed", etc. — and are compared with
the sequential-`str.replace` implementation above. -/

/-- Modelled from the spec: the forward (numeric) map as a per-character image. -/
def specNumericImage (c : Char) : List Char :=
  if c = 'O' ∨ c = 'o' then ['0']
  else if c = 'S' ∨ c = 's' then ['5']
  else if c = 'I' ∨ c = 'l' then ['1']
  else if c = 'B' then ['8']
  else if c = 'Z' then ['2']
  else if c = ' ' then []
  else [c]

/-- Modelled from the spec: the inverse (alpha) map as a per-character image. -/
def specAlphaImage (c : Char) : List Char :=
  if c = '0' then ['O']
  else if c = '5' then ['S']
  else if c = '1' then ['I']
  else if c = '8' then ['B']
  else if c = '2' then ['Z']
  else [c]

/-- Modelled from the spec: the conservative subset applied for any other hint. -/
def specDefaultImage (c : Char) : List Char :=
  if c = 'O' then ['0']
  else if c = 'l' then ['1']
  else if c = 'I' then ['1']
  else [c]

/-- Apply a per-character image map over a whole string. -/
def charwise (f : Char → List Char) : List Char → List Char
  | [] => []
  | c :: rest => f c ++ charwise f rest

/-! ## Field normalizers (normalizers.py)

`normalize_phone` (line 42), `normalize_pan` (line 79) and `normalize_aadhaar`
(line 103) all begin — after their falsy-input guard — with a call
`apply_confusion_corrections(raw, hint)` passing two positional arguments, but
`apply_confusion_corrections` (cleaners.py:26) accepts a single dict argument.
In Python that call raises `TypeError` before any of the remaining logic runs,
and no handler catches it, so these three normalizers raise on every non-falsy
input.  The raised exception is embedded as `Except.error`. -/

/-- The message of the `TypeError` raised by calling the one-parameter
`apply_confusion_corrections` with two arguments. -/
def typeErrorMsg : String :=
  "TypeError: apply_confusion_corrections() takes 1 positional argument but 2 were given"

/-- `normalize_phone` (normalizers.py:42) as the code actually behaves:
`None`/`""` return `None`; any other input reaches the two-argument
`apply_confusion_corrections` call and raises. -/
def normalize_phone (raw_phone : Option String) : Except String (Option String) :=
  match raw_phone with
  | none => .ok none
  | some s => if s = "" then .ok none else .error typeErrorMsg

/-- `normalize_pan` (normalizers.py:79): same structure, raises after the guard. -/
def normalize_pan (raw_pan : Option String) : Except String (Option String) :=
  match raw_pan with
  | none => .ok none
  | some s => if s = "" then .ok none else .error typeErrorMsg

/-- `normalize_aadhaar` (normalizers.py:103): same structure, raises after the guard. -/
def normalize_aadhaar (raw_aadhaar : Option String) : Except String (Option String) :=
  match raw_aadhaar with
  | none => .ok none
  | some s => if s = "" then .ok none else .error typeErrorMsg

/-- The digit-count dispatch of `normalize_phone` (normalizers.py:59-77),
applied to the digits kept from the corrected string.  `digits` contains only
ASCII digits, so the `startswith('+91')` test (kept for faithfulness) is never
true on actual inputs. -/
def phoneFromDigits (digits : String) : Option String :=
  if digits.data.length == 10 then some ("+91" ++ digits)
  else if digits.data.length == 11 && pyStartsWith "0" digits then
    some ("+91" ++ (⟨digits.data.drop 1⟩ : String))
  else if digits.data.length == 12 && pyStartsWith "91" digits then
    some ("+" ++ digits)
  else if digits.data.length == 13 && pyStartsWith "+91" digits then
    some ("+" ++ (⟨digits.data.drop 1⟩ : String))
  else if digits.data.length == 13 && !pyStartsWith "91" digits then
    (let last10 : String := ⟨digits.data.drop (digits.data.length - 10)⟩
     if pyIsDigits last10 then some ("+91" ++ last10) else none)
  else if 10 ≤ digits.data.length && digits.data.length ≤ 15 then
    some ("+" ++ digits)
  else none

/-- `normalize_phone` as evidently intended (and as the spec describes it):
the confusion-correction step performed through `correct_text(raw, 'numeric')`
— the callee that matches the passed arguments — followed by
`re.sub(r'\D', '', ...)` and the digit-count dispatch. -/
def normalize_phone_intended (raw_phone : Option String) : Option String :=
  match raw_phone with
  | none => none
  | some s =>
    if s = "" then none
    else
      let cleaned := applyReplacements confusionMap s.data
      phoneFromDigits ⟨cleaned.filter Char.isDigit⟩

/-! ### Date normalization (normalizers.py:365-472)

`normalize_date` searches five regex patterns in order.  The patterns use only
`\d{lo,hi}`, `\w+`, `\s+`, single-character classes and `,?`, so they are
embedded with a small backtracking matcher with Python's leftmost, greedy
semantics (`re.search` tries each start position left to right; quantifiers
prefer the longest match and backtrack). -/

/-- Python `\w` (ASCII input domain). -/
def isWordChar (c : Char) : Bool := c.isAlphanum || c == '_'

/-- One token of a date regex. `digits lo hi` is a capturing `\d` repetition,
`word` a capturing `\w+`, `cls` a one-character class, `sp` is `\s+`,
`optComma` is `,?`. -/
inductive RTok where
  | digits (lo hi : Nat)
  | word
  | cls (p : Char → Bool)
  | sp
  | optComma

/-- Try candidate lengths in the given order, returning the first success. -/
def firstSome (f : Nat → Option (List String)) : List Nat → Option (List String)
  | [] => none
  | n :: ns =>
    match f n with
    | some r => some r
    | none => firstSome f ns

/-- `[hi, hi-1, ..., lo]` — greedy order of candidate lengths. -/
def countdown (hi lo : Nat) : List Nat := (List.range' lo (hi + 1 - lo)).reverse

/-- Match a token sequence against a prefix of `s`, returning the captured
groups.  Greedy with backtracking, as Python's `re` behaves on these patterns. -/
def matchToks : List RTok → List Char → Option (List String)
  | [], _ => some []
  | .digits lo hi :: rest, s =>
    let run := (s.takeWhile Char.isDigit).length
    firstSome
      (fun n =>
        if n ≤ run then (matchToks rest (s.drop n)).map (fun caps => (⟨s.take n⟩ : String) :: caps)
        else none)
      (countdown hi lo)
  | .word :: rest, s =>
    let run := (s.takeWhile isWordChar).length
    firstSome
      (fun n =>
        if 1 ≤ n ∧ n ≤ run then
          (matchToks rest (s.drop n)).map (fun caps => (⟨s.take n⟩ : String) :: caps)
        else none)
      (countdown run 1)
  | .sp :: rest, s =>
    let run := (s.takeWhile Char.isWhitespace).length
    firstSome
      (fun n => if 1 ≤ n ∧ n ≤ run then matchToks rest (s.drop n) else none)
      (countdown run 1)
  | .cls p :: rest, s =>
    match s with
    | c :: t => if p c then matchToks rest t else none
    | [] => none
  | .optComma :: rest, s =>
    match s with
    | c :: t =>
      if c = ',' then
        match matchToks rest t with
        | some r => some r
        | none => matchToks rest (c :: t)
      else matchToks rest (c :: t)
    | [] => matchToks rest []

/-- `re.search`: try each start position from the left; first match wins. -/
def reSearch (toks : List RTok) : List Char → Option (List String)
  | [] => matchToks toks []
  | c :: t =>
    match matchToks toks (c :: t) with
    | some r => some r
    | none => reSearch toks t

/-- The class matching a dash or a slash. -/
def dashSlash (c : Char) : Bool := c == '-' || c == '/'

/-- The class matching a dash or whitespace. -/
def dashWS (c : Char) : Bool := c == '-' || c.isWhitespace

/-- The class matching a dash, a slash or whitespace. -/
def dashSlashWS (c : Char) : Bool := c == '-' || c == '/' || c.isWhitespace

/-- `DATE_PATTERNS` (normalizers.py:30). -/
def DATE_PATTERNS : List (List RTok) :=
  [[.digits 1 2, .cls dashSlash, .digits 1 2, .cls dashSlash, .digits 2 4],
   [.digits 2 4, .cls dashSlash, .digits 1 2, .cls dashSlash, .digits 1 2],
   [.digits 1 2, .sp, .word, .sp, .digits 2 4],
   [.digits 1 2, .cls dashWS, .word, .cls dashSlashWS, .digits 2 4],
   [.word, .sp, .digits 1 2, .optComma, .sp, .digits 2 4]]

/-- `MONTH_MAP` (normalizers.py:14). -/
def MONTH_MAP : List (String × String) :=
  [("jan", "01"), ("january", "01"), ("feb", "02"), ("february", "02"),
   ("mar", "03"), ("march", "03"), ("apr", "04"), ("april", "04"),
   ("may", "05"), ("jun", "06"), ("june", "06"), ("jul", "07"), ("july", "07"),
   ("aug", "08"), ("august", "08"), ("sep", "09"), ("sept", "09"),
   ("september", "09"), ("oct", "10"), ("october", "10"), ("nov", "11"),
   ("november", "11"), ("dec", "12"), ("december", "12")]

/-- Dict `.get` on a string-keyed table. -/
def lookupStr (m : List (String × String)) (k : String) : Option String :=
  (m.find? (fun p => p.1 == k)).map Prod.snd

/-- `_strip_ordinal` (normalizers.py:337): drop a trailing `st|nd|rd|th`
(case-insensitive). -/
def stripOrdinal (s : String) : String :=
  let l := s.data
  if 2 ≤ l.length then
    let t := (l.drop (l.length - 2)).map Char.toLower
    if t == ['s', 't'] || t == ['n', 'd'] || t == ['r', 'd'] || t == ['t', 'h'] then
      ⟨l.take (l.length - 2)⟩
    else s
  else s

/-- `_normalize_two_digit_year` (normalizers.py:330). -/
def normTwoDigitYear (y : String) : String :=
  let ys := pyStrip y
  if ys.data.length = 2 then "20" ++ ys else zfill 4 ys

/-- Gregorian leap year. -/
def isLeap (y : Nat) : Bool := y % 4 == 0 && (y % 100 != 0 || y % 400 == 0)

/-- Days in a month of the proleptic Gregorian calendar. -/
def daysInMonth (y m : Nat) : Nat :=
  if m = 2 then (if isLeap y then 29 else 28)
  else if m = 4 ∨ m = 6 ∨ m = 9 ∨ m = 11 then 30
  else 31

/-- `datetime.strptime(f"{year}-{month}-{day}", "%Y-%m-%d")` succeeding, for
the zero-padded components the parser builds: the year is 4 digits (and at
least year 1, `datetime.MINYEAR`), month and day exactly 2 digits, and the day
exists in the month (real calendar check, leap years included). -/
def validDate (y m d : String) : Bool :=
  y.data.length == 4 && pyIsDigits y && m.data.length == 2 && pyIsDigits m &&
  d.data.length == 2 && pyIsDigits d &&
  (let yn := digitsToNat y.data
   let mn := digitsToNat m.data
   let dn := digitsToNat d.data
   1 ≤ yn && 1 ≤ mn && mn ≤ 12 && 1 ≤ dn && dn ≤ daysInMonth yn mn)

/-- The `try:` block of `normalize_date` (normalizers.py:381-465) applied to
the three captured groups; a `ValueError` from `strptime` (or a failed month
lookup) is `none`, which makes the caller continue with the next pattern. -/
def processParts (g1 g2 g3 : String) : Option String :=
  let parts : List String :=
    [stripOrdinal (pyStrip g1), stripOrdinal (pyStrip g2), stripOrdinal (pyStrip g3)]
  let partAt : Nat → String := fun i => parts.getD i ""
  match [0, 1, 2].find? (fun i => (partAt i).data.any Char.isAlpha) with
  | some month_idx =>
    let mlow := pyLower (partAt month_idx)
    match (lookupStr MONTH_MAP ⟨mlow.data.take 3⟩).orElse (fun _ => lookupStr MONTH_MAP mlow) with
    | none => none
    | some month =>
      let idxs := [0, 1, 2].filter (· ≠ month_idx)
      let year_idx? := idxs.foldl
        (fun acc i =>
          let p := partAt i
          if p.data.length == 4 && pyIsDigits p then some i
          else if p.data.length == 2 && pyIsDigits p && 31 < digitsToNat p.data then some i
          else acc)
        none
      let year_idx := year_idx?.getD ((idxs.getLast?).getD 0)
      let day_idx := ((idxs.filter (· ≠ year_idx)).head?).getD 0
      let day := zfill 2 (partAt day_idx)
      let year := normTwoDigitYear (partAt year_idx)
      if validDate year month day then some (year ++ "-" ++ month ++ "-" ++ day) else none
  | none =>
    let a := partAt 0
    let b := partAt 1
    let c := partAt 2
    let ymd : String × String × String :=
      if a.data.length = 4 then (a, b, c)
      else if c.data.length = 4 then (c, b, a)
      else (normTwoDigitYear c, b, a)
    let year := zfill 4 ymd.1
    let month := zfill 2 ymd.2.1
    let day := zfill 2 ymd.2.2
    if validDate year month day then some (year ++ "-" ++ month ++ "-" ++ day) else none

/-- One iteration of the pattern loop: search, then process the groups.  Every
pattern has exactly three groups, so the catch-all branch is unreachable. -/
def tryPattern (p : List RTok) (cleaned : List Char) : Option String :=
  match reSearch p cleaned with
  | none => none
  | some gs =>
    match gs with
    | [g1, g2, g3] => processParts g1 g2 g3
    | _ => none

/-- The pattern loop: first pattern that yields a validated date wins. -/
def firstPat : List (List RTok) → List Char → Option String
  | [], _ => none
  | p :: ps, cleaned =>
    match tryPattern p cleaned with
    | some r => some r
    | none => firstPat ps cleaned

/-- `normalize_date` (normalizers.py:365). -/
def normalize_date (raw_date : Option String) : Option String :=
  match raw_date with
  | none => none
  | some r =>
    if r = "" then none
    else
      let cleaned := (cleanWhitespace r).data.map (fun c => if c = ',' then ' ' else c)
      firstPat DATE_PATTERNS cleaned

/-! ## Verification rules (rules.py)

The rules read exactly one key of each `ExtractedField` dict: `value`.  A
document is therefore embedded as the record of its ten field values
(`data.get(field, {}).get('value')`), with `address` allowed to carry either a
structured-address dict or a raw string, as the code's `isinstance` test
expects.  A `PersonExtraction` is the insertion-ordered list of
`(doc_type, doc)` pairs of the Python dict. -/

/-- `StructuredAddress` as produced by `canonicalize_address`. -/
structure Addr where
  house : Option String
  street : Option String
  city : Option String
  state : Option String
  pincode : Option String
deriving DecidableEq

/-- The `value` of an `address` field: a structured dict or a raw string. -/
inductive AddrVal where
  | dict (a : Addr)
  | str (s : String)
deriving DecidableEq

/-- The ten field values of one document. -/
structure Doc where
  full_name : Option String
  father_name : Option String
  date_of_birth : Option String
  address : Option AddrVal
  phone_number : Option String
  email_address : Option String
  aadhaar_number : Option String
  pan_number : Option String
  employee_id : Option String
  account_number : Option String
deriving DecidableEq

/-- A document with every field `None`. -/
def emptyDoc : Doc :=
  ⟨none, none, none, none, none, none, none, none, none, none⟩

/-- Per-person extraction: `(doc_type, doc)` pairs in dict insertion order. -/
def PersonExtraction := List (String × Doc)

/-- Python truthiness of an optional string (`None` and `""` are falsy). -/
def truthyStr : Option String → Bool
  | none => false
  | some s => !(s == "")

/-- Python truthiness of an `address` value: a structured dict always has its
five keys, hence is truthy; a raw string is truthy iff nonempty. -/
def truthyAddrVal : AddrVal → Bool
  | .dict _ => true
  | .str s => !(s == "")

/-- Collect `{doc_type: t(value)}` over the documents whose field value is
truthy (the `if field.get('value'):` filter every rule starts with), applying
a post-map `t` while inserting, in dict insertion order. -/
def collectWith (f : Doc → Option String) (t : String → String)
    (ext : PersonExtraction) : List (String × String) :=
  ext.filterMap (fun p =>
    match f p.2 with
    | some s => if s = "" then none else some (p.1, t s)
    | none => none)

/-- Collect truthy field values unchanged. -/
def collectStr (f : Doc → Option String) (ext : PersonExtraction) :
    List (String × String) :=
  collectWith f id ext

/-- Collect truthy address values. -/
def collectAddr (ext : PersonExtraction) : List (String × AddrVal) :=
  ext.filterMap (fun p =>
    match p.2.address with
    | some v => if truthyAddrVal v then some (p.1, v) else none
    | none => none)

/-- A compared value recorded in a rule result. -/
inductive RVal where
  | s (v : String)
  | a (v : AddrVal)
deriving DecidableEq

/-- `RuleResult`: the `{status, reason, values}` dict each rule returns. -/
structure RuleResult where
  status : String
  reason : String
  values : List (String × RVal)
deriving DecidableEq

/-- Tag string values for a rule result. -/
def sVals (l : List (String × String)) : List (String × RVal) :=
  l.map (fun p => (p.1, .s p.2))

/-- Tag address values for a rule result. -/
def aVals (l : List (String × AddrVal)) : List (String × RVal) :=
  l.map (fun p => (p.1, .a p.2))

/-- Lexicographic comparison of character lists by code point — the order
Python's `sorted` uses on strings. -/
def listLe : List Char → List Char → Bool
  | [], _ => true
  | _ :: _, [] => false
  | a :: as, b :: bs => if a < b then true else if b < a then false else listLe as bs

/-- Python's string order. -/
def strLe (a b : String) : Prop := listLe a.data b.data = true

instance : DecidableRel strLe := fun a b => by unfold strLe; infer_instance

/-- The token-set normalization of rules 1 and 5 (rules.py:88):
`' '.join(sorted(set(name.lower().split())))`. -/
def normName (name : String) : String :=
  joinSpace (List.insertionSort strLe (pySplit (pyLower name)).dedup)

/-- `verify_name_match` (rules.py:69). -/
def verify_name_match (ext : PersonExtraction) : RuleResult :=
  let names := collectStr Doc.full_name ext
  if names.length < 2 then
    ⟨"FAIL", "Insufficient name data for comparison", sVals names⟩
  else
    let unique := (names.map (fun p => normName p.2)).dedup
    if unique.length = 1 then
      ⟨"PASS", "All document names match after normalization", sVals names⟩
    else
      ⟨"FAIL", "Name mismatch across documents. Found " ++ toString unique.length ++
        " different normalized names", sVals names⟩

/-- `verify_dob_match` (rules.py:107). -/
def verify_dob_match (ext : PersonExtraction) : RuleResult :=
  let dobs := collectStr Doc.date_of_birth ext
  if dobs.length < 2 then
    ⟨"FAIL", "Insufficient DOB data for comparison", sVals dobs⟩
  else
    let unique := (dobs.map Prod.snd).dedup
    if unique.length = 1 then
      ⟨"PASS", "All document dates of birth match", sVals dobs⟩
    else
      ⟨"FAIL", "DOB mismatch across documents. Found " ++ toString unique.length ++
        " different dates", sVals dobs⟩

/-- `'None'` for `None`, the string itself otherwise (f-string interpolation). -/
def optRepr : Option String → String
  | none => "None"
  | some s => s

/-- The `(city, state, pincode)` key components of a structured address
(rules.py:157-161): a falsy component becomes `None`, otherwise it is
lower-cased (city, state) and stripped. -/
def keyComponents (a : Addr) : Option String × Option String × Option String :=
  (match a.city with
   | some c => if c = "" then none else some (pyStrip (pyLower c))
   | none => none,
   match a.state with
   | some st => if st = "" then none else some (pyStrip (pyLower st))
   | none => none,
   match a.pincode with
   | some pc => if pc = "" then none else some (pyStrip pc)
   | none => none)

/-- `all(comp)` over a component triple: every entry truthy. -/
def compTruthy (c : Option String × Option String × Option String) : Bool :=
  truthyStr c.1 && truthyStr c.2.1 && truthyStr c.2.2

/-- `verify_address_match` (rules.py:138). -/
def verify_address_match (ext : PersonExtraction) : RuleResult :=
  let addresses := collectAddr ext
  if addresses.length < 2 then
    ⟨"FAIL", "Insufficient address data for comparison", aVals addresses⟩
  else
    let key_components := addresses.filterMap (fun p =>
      match p.2 with
      | .dict a => some (p.1, keyComponents a)
      | .str _ => none)
    let unique := ((key_components.map Prod.snd).filter compTruthy).dedup
    if unique.length = 1 then
      ⟨"PASS", "Address key components (city, state, pincode) match across documents",
        aVals addresses⟩
    else
      ⟨"FAIL", "Address key components mismatch. Details: " ++
        joinSemi (key_components.map (fun p =>
          p.1 ++ ": city=" ++ optRepr p.2.1 ++ ", state=" ++ optRepr p.2.2.1 ++
          ", pincode=" ++ optRepr p.2.2.2)),
        aVals addresses⟩

/-- The inline phone normalization of rule 4 (rules.py:191): a 13-character
value starting with `+91` is replaced by its last 10 characters. -/
def phoneKey (s : String) : String :=
  if pyStartsWith "+91" s && s.data.length == 13 then ⟨s.data.drop 3⟩ else s

/-- `verify_phone_match` (rules.py:183). -/
def verify_phone_match (ext : PersonExtraction) : RuleResult :=
  let phones := collectWith Doc.phone_number phoneKey ext
  if phones.length < 2 then
    ⟨"FAIL", "Insufficient phone data for comparison", sVals phones⟩
  else
    let unique := (phones.map Prod.snd).dedup
    if unique.length = 1 then
      ⟨"PASS", "All document phone numbers match", sVals phones⟩
    else
      ⟨"FAIL", "Phone number mismatch across documents. Found " ++
        toString unique.length ++ " different numbers", sVals phones⟩

/-- `verify_father_name_match` (rules.py:219). -/
def verify_father_name_match (ext : PersonExtraction) : RuleResult :=
  let father_names := collectStr Doc.father_name ext
  if father_names.length < 2 then
    ⟨"FAIL", "Insufficient father's name data for comparison", sVals father_names⟩
  else
    let unique := (father_names.map (fun p => normName p.2)).dedup
    if unique.length = 1 then
      ⟨"PASS", "All document father's names match after normalization", sVals father_names⟩
    else
      ⟨"FAIL", "Father's name mismatch across documents. Found " ++
        toString unique.length ++ " different normalized names", sVals father_names⟩

/-- The per-value PAN shape test of rule 6 (rules.py:273): length 10,
`pan[:5].isalpha()`, `pan[5:9].isdigit()`, `pan[9].isalpha()`. -/
def panShapeOk (s : String) : Bool :=
  s.data.length == 10 && pyIsAlpha ⟨s.data.take 5⟩ &&
  pyIsDigits ⟨(s.data.drop 5).take 4⟩ && pyIsAlpha ⟨(s.data.drop 9).take 1⟩

/-- `verify_pan_format` (rules.py:255). -/
def verify_pan_format (ext : PersonExtraction) : RuleResult :=
  let pans := collectStr Doc.pan_number ext
  if pans.isEmpty then
    ⟨"FAIL", "No PAN numbers found in any document", sVals pans⟩
  else
    let invalid := pans.filter (fun p => !panShapeOk p.2)
    if invalid.isEmpty then
      ⟨"PASS", "All PAN numbers have valid format", sVals pans⟩
    else
      ⟨"FAIL", "Invalid PAN format in documents: " ++
        joinCommaSpace (invalid.map Prod.fst), sVals pans⟩

/-- The per-value Aadhaar shape test of rule 7 (rules.py:310): exactly 12
digits. -/
def aadhaarShapeOk (s : String) : Bool :=
  s.data.length == 12 && pyIsDigits s

/-- `verify_aadhaar_format` (rules.py:292). -/
def verify_aadhaar_format (ext : PersonExtraction) : RuleResult :=
  let aadhaars := collectStr Doc.aadhaar_number ext
  if aadhaars.isEmpty then
    ⟨"FAIL", "No Aadhaar numbers found in any document", sVals aadhaars⟩
  else
    let invalid := aadhaars.filter (fun p => !aadhaarShapeOk p.2)
    if invalid.isEmpty then
      ⟨"PASS", "All Aadhaar numbers have valid format (12 digits)", sVals aadhaars⟩
    else
      ⟨"FAIL", "Invalid Aadhaar format in documents: " ++
        joinCommaSpace (invalid.map Prod.fst), sVals aadhaars⟩

/-- `verify_person` (rules.py:10): the dict of the seven rule results, in
insertion order.  Note the function returns only `results`; the
`overall_status` computed on rules.py:43-63 is logged and discarded (see
`overall_status_lenient` below). -/
def verify_person (ext : PersonExtraction) : List (String × RuleResult) :=
  [("rule_1_name_match", verify_name_match ext),
   ("rule_2_dob_match", verify_dob_match ext),
   ("rule_3_address_match", verify_address_match ext),
   ("rule_4_phone_match", verify_phone_match ext),
   ("rule_5_father_name_match", verify_father_name_match ext),
   ("rule_6_pan_format", verify_pan_format ext),
   ("rule_7_aadhaar_format", verify_aadhaar_format ext)]

/-- Non-null indicator of an optional value (`value is not None`). -/
def oneIf (o : Option α) : Nat := if o.isSome then 1 else 0

/-- Number of fields of one document whose `value` is not `None`
(rules.py:50-54 counts these across all documents). -/
def nonNullCount (d : Doc) : Nat :=
  oneIf d.full_name + oneIf d.father_name + oneIf d.date_of_birth +
  oneIf d.address + oneIf d.phone_number + oneIf d.email_address +
  oneIf d.aadhaar_number + oneIf d.pan_number + oneIf d.employee_id +
  oneIf d.account_number

/-- `total_extracted_fields` (rules.py:50). -/
def total_extracted_fields (ext : PersonExtraction) : Nat :=
  (ext.map (fun p => nonNullCount p.2)).sum

/-- Number of documents whose value for a field is not `None`. -/
def countIsSome (f : Doc → Option α) (ext : PersonExtraction) : Nat :=
  (ext.map (fun p => oneIf (f p.2))).sum

/-- The overall status computed inside `verify_person` (rules.py:43-63, the
"MORE LENIENT VERSION": below 5 extracted fields force `FAILED`, otherwise
`VERIFIED` iff both key rules pass).  `verify_person` logs this value and then
drops it — it is not part of the returned dict. -/
def overall_status_lenient (ext : PersonExtraction) : String :=
  let results := verify_person ext
  let passed_key_rules :=
    (["rule_1_name_match", "rule_2_dob_match"].filter (fun r =>
      match results.lookup r with
      | some rr => rr.status == "PASS"
      | none => false)).length
  if total_extracted_fields ext < 5 then "FAILED"
  else if 2 ≤ passed_key_rules then "VERIFIED"
  else "FAILED"

/-- The overall status the pipeline actually reports
(run_pipeline.py:189-196): start from `VERIFIED` and set `FAILED` as soon as
any of the returned rule results has status `FAIL`. -/
def pipeline_overall_status (results : List (String × RuleResult)) : String :=
  if results.any (fun p => p.2.status == "FAIL") then "FAILED" else "VERIFIED"

/-! ## Extraction post-processor (cleaners.py:26, `apply_confusion_corrections`)

This function receives the free-form per-document extraction dict
`{field_name: field_data}` where `field_data` is usually the ExtractedField
dict but may be anything.  Python values are embedded as `PyVal`; an object
that is neither `None`, a string nor a dict is `obj tag` (opaque identity,
truthy as Python default objects are). -/

/-- A Python value as seen by the extraction post-processor. -/
inductive PyVal where
  | vnone
  | vstr (s : String)
  | vdict (entries : List (String × PyVal))
  | obj (tag : Nat)

/-- Python truthiness of a `PyVal` (a dict is truthy iff nonempty; default
objects are truthy). -/
def pyTruthy : PyVal → Bool
  | .vnone => false
  | .vstr s => !(s == "")
  | .vdict entries => !entries.isEmpty
  | .obj _ => true

/-- `field_hints` (cleaners.py:44), in insertion order. -/
def field_hints : List (String × String) :=
  [("aadhaar_number", "numeric"), ("pan_number", "alphanumeric"),
   ("phone_number", "numeric"), ("account_number", "numeric"),
   ("employee_id", "alphanumeric"), ("full_name", "alpha"),
   ("father_name", "alpha"), ("date_of_birth", "numeric")]

/-- Dict `.get` on a `PyVal` dict. -/
def dictGet (entries : List (String × PyVal)) (k : String) : Option PyVal :=
  (entries.find? (fun p => p.1 == k)).map Prod.snd

/-- Assignment to an existing dict key: replace the value in place, keeping
insertion order (the caller guards with `'value' in field_data`). -/
def dictSet (entries : List (String × PyVal)) (k : String) (v : PyVal) :
    List (String × PyVal) :=
  entries.map (fun p => if p.1 == k then (p.1, v) else p)

/-- The per-field body of the loop in `apply_confusion_corrections`
(cleaners.py:60-76): copy the field dict and, when its `value` is a truthy
string, replace the copy's `value` by `correct_text(value, hint)` if that
differs. -/
def correctField (field_name : String) (entries : List (String × PyVal)) :
    List (String × PyVal) :=
  match dictGet entries "value" with
  | some v =>
    if pyTruthy v then
      match v with
      | .vstr s =>
        match correct_text (some s) (lookupStr field_hints field_name) with
        | some corrected =>
          if corrected ≠ s then dictSet entries "value" (.vstr corrected) else entries
        | none => entries
      | _ => entries
    else entries
  | none => entries

/-- `apply_confusion_corrections` (cleaners.py:26) on a dict input: build a
fresh dict; each dict-valued field is replaced by a corrected copy, any other
field data passes through unchanged.  (The non-dict top-level input case of
the Python function returns the input unchanged and is outside this model.) -/
def apply_confusion_corrections (extracted_data : List (String × PyVal)) :
    List (String × PyVal) :=
  extracted_data.map (fun p =>
    match p.2 with
    | .vdict entries => (p.1, .vdict (correctField p.1 entries))
    | fd => (p.1, fd))


/-! ## Auxiliary notions used by the statements below -/

/-- The multiset of lowercase tokens of a name, as rule 1/5 computes it before
taking the set (`name.lower().split()`). -/
def tokenSet (s : String) : List String := pySplit (pyLower s)

/-- Two names yield the same set of lowercase tokens. -/
def sameTokenSet (a b : String) : Bool :=
  ((tokenSet a).all fun t => decide (t ∈ tokenSet b)) &&
  ((tokenSet b).all fun t => decide (t ∈ tokenSet a))

/-- `pat` occurs as a contiguous substring of `l`. -/
def containsSub (pat : List Char) : List Char → Bool
  | [] => pat.isEmpty
  | c :: t => pat.isPrefixOf (c :: t) || containsSub pat t

/-- The reason string mentions "insufficient" (case-insensitively). -/
def mentionsInsufficient (s : String) : Bool :=
  containsSub "insufficient".data (s.data.map Char.toLower)

/-- A string of the shape `YYYY-MM-DD` naming a calendar-valid date. -/
def validIso (out : String) : Prop :=
  ∃ y m d, out = y ++ "-" ++ m ++ "-" ++ d ∧ validDate y m d = true

/-- A person with matching name and date of birth on two documents, five
non-null fields in total, and no usable address, phone pair, PAN or Aadhaar:
the two key rules pass and every other rule fails. -/
def exKeyRules : PersonExtraction :=
  [("government_id",
    { emptyDoc with
        full_name := some "John Doe"
        date_of_birth := some "1990-08-15"
        phone_number := some "+919876543210" }),
   ("bank_statement",
    { emptyDoc with
        full_name := some "John Doe"
        date_of_birth := some "1990-08-15" })]

/-- A person with a single document carrying one well-formed PAN. -/
def exSinglePan : PersonExtraction :=
  [("government_id", { emptyDoc with pan_number := some "ABCDE1234F" })]

/-- Name values that differ in token order and repetition but have equal
token sets. -/
def exTokens : PersonExtraction :=
  [("government_id",
    { emptyDoc with
        full_name := some "John John Doe"
        father_name := some "Ram Kumar Kumar" }),
   ("bank_statement",
    { emptyDoc with
        full_name := some "Doe John"
        father_name := some "Kumar Ram" })]

/-- A single-document extraction used to exercise the insufficiency gates. -/
def exOneDoc : PersonExtraction := [("government_id", emptyDoc)]

/-- A field dict as the extraction post-processor receives it. -/
def exFields : List (String × PyVal) :=
  [("full_name", .vdict [("value", .vstr "J0hn"), ("raw_context", .vstr "name: J0hn"),
                         ("confidence", .vstr "high"), ("source", .vstr "regex")]),
   ("address", .obj 0)]

/-! ## Theorems -/

/-! ### Confusion-corrector refinement lemmas: the sequential replacements
equal a single character-wise pass (no substitution output feeds a later
substitution). -/

theorem replaceChar_append (a : Char) (b : List Char) (l₁ l₂ : List Char) :
    replaceChar a b (l₁ ++ l₂) = replaceChar a b l₁ ++ replaceChar a b l₂ := by
  induction l₁ with
  | nil => rfl
  | cons c t ih => simp [replaceChar, ih]

theorem applyReplacements_append (m : List (Char × List Char)) (l₁ l₂ : List Char) :
    applyReplacements m (l₁ ++ l₂) = applyReplacements m l₁ ++ applyReplacements m l₂ := by
  induction m generalizing l₁ l₂ with
  | nil => rfl
  | cons p t ih =>
    show applyReplacements t (replaceChar p.1 p.2 (l₁ ++ l₂)) = _
    rw [replaceChar_append]
    exact ih _ _

theorem applyNum_single (c : Char) :
    applyReplacements confusionMap [c] = specNumericImage c := by
  rcases eq_or_ne c 'O' with h | h1
  · subst h; decide
  rcases eq_or_ne c 'o' with h | h2
  · subst h; decide
  rcases eq_or_ne c 'S' with h | h3
  · subst h; decide
  rcases eq_or_ne c 's' with h | h4
  · subst h; decide
  rcases eq_or_ne c 'I' with h | h5
  · subst h; decide
  rcases eq_or_ne c 'l' with h | h6
  · subst h; decide
  rcases eq_or_ne c 'B' with h | h7
  · subst h; decide
  rcases eq_or_ne c 'Z' with h | h8
  · subst h; decide
  rcases eq_or_ne c ' ' with h | h9
  · subst h; decide
  simp [applyReplacements, confusionMap, replaceChar, specNumericImage,
    h1, h2, h3, h4, h5, h6, h7, h8, h9]

theorem applyAlpha_single (c : Char) :
    applyReplacements reverseConfusionMap [c] = specAlphaImage c := by
  rcases eq_or_ne c '0' with h | h1
  · subst h; decide
  rcases eq_or_ne c '5' with h | h2
  · subst h; decide
  rcases eq_or_ne c '1' with h | h3
  · subst h; decide
  rcases eq_or_ne c '8' with h | h4
  · subst h; decide
  rcases eq_or_ne c '2' with h | h5
  · subst h; decide
  simp [applyReplacements, reverseConfusionMap, replaceChar, specAlphaImage,
    h1, h2, h3, h4, h5]

theorem applyDefault_single (c : Char) :
    applyReplacements defaultMap [c] = specDefaultImage c := by
  rcases eq_or_ne c 'O' with h | h1
  · subst h; decide
  rcases eq_or_ne c 'l' with h | h2
  · subst h; decide
  rcases eq_or_ne c 'I' with h | h3
  · subst h; decide
  simp [applyReplacements, defaultMap, replaceChar, specDefaultImage, h1, h2, h3]

theorem applyNum_eq (l : List Char) :
    applyReplacements confusionMap l = charwise specNumericImage l := by
  induction l with
  | nil => decide
  | cons c t ih =>
    have h : c :: t = [c] ++ t := rfl
    rw [h, applyReplacements_append, applyNum_single, ih]
    rfl

theorem applyAlpha_eq (l : List Char) :
    applyReplacements reverseConfusionMap l = charwise specAlphaImage l := by
  induction l with
  | nil => decide
  | cons c t ih =>
    have h : c :: t = [c] ++ t := rfl
    rw [h, applyReplacements_append, applyAlpha_single, ih]
    rfl

theorem applyDefault_eq (l : List Char) :
    applyReplacements defaultMap l = charwise specDefaultImage l := by
  induction l with
  | nil => decide
  | cons c t ih =>
    have h : c :: t = [c] ++ t := rfl
    rw [h, applyReplacements_append, applyDefault_single, ih]
    rfl


/-! ### The lexicographic token order is total, transitive and antisymmetric -/

theorem listLe_total (a b : List Char) : listLe a b = true ∨ listLe b a = true := by
  induction a generalizing b with
  | nil => left; rfl
  | cons x xs ih =>
    cases b with
    | nil => right; rfl
    | cons y ys =>
      rcases lt_trichotomy x y with h | h | h
      · left; simp [listLe, h]
      · subst h
        rcases ih ys with h2 | h2
        · left; simp [listLe, lt_irrefl, h2]
        · right; simp [listLe, lt_irrefl, h2]
      · right; simp [listLe, h]

theorem listLe_trans : ∀ {a b c : List Char},
    listLe a b = true → listLe b c = true → listLe a c = true
  | [], _, _, _, _ => rfl
  | _ :: _, [], _, h1, _ => by simp [listLe] at h1
  | _ :: _, _ :: _, [], _, h2 => by simp [listLe] at h2
  | x :: xs, y :: ys, z :: zs, h1, h2 => by
    rcases lt_trichotomy x y with hxy | hxy | hxy
    · rcases lt_trichotomy y z with hyz | hyz | hyz
      · simp [listLe, lt_trans hxy hyz]
      · subst hyz; simp [listLe, hxy]
      · simp [listLe, hyz, asymm hyz] at h2
    · subst hxy
      rcases lt_trichotomy x z with hyz | hyz | hyz
      · simp [listLe, hyz]
      · subst hyz
        simp only [listLe, lt_irrefl, if_false] at h1 h2 ⊢
        exact listLe_trans h1 h2
      · simp [listLe, hyz, asymm hyz] at h2
    · simp [listLe, hxy, asymm hxy] at h1

theorem listLe_antisymm : ∀ {a b : List Char},
    listLe a b = true → listLe b a = true → a = b
  | [], [], _, _ => rfl
  | [], _ :: _, _, h2 => by simp [listLe] at h2
  | _ :: _, [], h1, _ => by simp [listLe] at h1
  | x :: xs, y :: ys, h1, h2 => by
    rcases lt_trichotomy x y with hxy | hxy | hxy
    · simp [listLe, hxy, asymm hxy] at h2
    · subst hxy
      simp only [listLe, lt_irrefl, if_false] at h1 h2
      rw [listLe_antisymm h1 h2]
    · simp [listLe, hxy, asymm hxy] at h1

/-! ### Token-set names normalize identically -/

theorem normName_eq_of_sameTokenSet (a b : String) (h : sameTokenSet a b = true) :
    normName a = normName b := by
  haveI hTot : IsTotal String strLe :=
    ⟨fun u v => by
      rcases listLe_total u.data v.data with h' | h'
      · exact Or.inl h'
      · exact Or.inr h'⟩
  haveI hTrans : IsTrans String strLe :=
    ⟨fun u v w h1 h2 => listLe_trans h1 h2⟩
  haveI hAnti : IsAntisymm String strLe :=
    ⟨fun u v h1 h2 => by
      cases u; cases v
      exact congrArg String.mk (listLe_antisymm h1 h2)⟩
  have hmem : ∀ t : String, t ∈ tokenSet a ↔ t ∈ tokenSet b := by
    simp only [sameTokenSet, Bool.and_eq_true, List.all_eq_true,
      decide_eq_true_eq] at h
    exact fun t => ⟨fun ht => h.1 t ht, fun ht => h.2 t ht⟩
  have hperm : List.Perm (tokenSet a).dedup (tokenSet b).dedup := by
    rw [List.perm_ext_iff_of_nodup (List.nodup_dedup _) (List.nodup_dedup _)]
    intro t
    simp only [List.mem_dedup]
    exact hmem t
  have hsorted :
      List.insertionSort strLe (tokenSet a).dedup =
      List.insertionSort strLe (tokenSet b).dedup :=
    List.eq_of_perm_of_sorted
      ((List.perm_insertionSort strLe _).trans
        (hperm.trans (List.perm_insertionSort strLe _).symm))
      (List.sorted_insertionSort strLe _) (List.sorted_insertionSort strLe _)
  show joinSpace (List.insertionSort strLe (tokenSet a).dedup) =
    joinSpace (List.insertionSort strLe (tokenSet b).dedup)
  rw [hsorted]

/-- A nonempty list whose elements all equal `c` dedups to `[c]`. -/
theorem dedup_eq_singleton_of_const {α} [DecidableEq α] {c : α} :
    ∀ {l : List α}, l ≠ [] → (∀ x ∈ l, x = c) → l.dedup = [c]
  | [], h, _ => absurd rfl h
  | [a], _, hall => by
    rw [hall a (List.mem_singleton.mpr rfl)]
    rfl
  | a :: b :: t, _, hall => by
    have ha : a = c := hall a (by simp)
    have hb : b = c := hall b (by simp)
    have hmem : a ∈ b :: t := by
      rw [ha, ← hb]
      exact List.mem_cons_self b t
    rw [List.dedup_cons_of_mem hmem]
    exact dedup_eq_singleton_of_const (by simp) fun x hx => hall x (List.mem_cons_of_mem a hx)

/-! ### Counting lemmas -/

theorem countIsSome_cons {α} (f : Doc → Option α) (p : String × Doc)
    (rest : List (String × Doc)) :
    countIsSome f (p :: rest) = oneIf (f p.2) + countIsSome f rest := by
  simp only [countIsSome, List.map_cons, List.sum_cons]

theorem total_cons (p : String × Doc) (rest : List (String × Doc)) :
    total_extracted_fields (p :: rest) = nonNullCount p.2 + total_extracted_fields rest := by
  simp only [total_extracted_fields, List.map_cons, List.sum_cons]

theorem collectWith_length_le (f : Doc → Option String) (t : String → String)
    (ext : PersonExtraction) :
    (collectWith f t ext).length ≤ countIsSome f ext := by
  induction ext with
  | nil => exact Nat.le_refl 0
  | cons p rest ih =>
    rw [countIsSome_cons]
    cases hf : f p.2 with
    | none =>
      have hc : collectWith f t (p :: rest) = collectWith f t rest := by
        simp [collectWith, List.filterMap_cons, hf]
      rw [hc]
      simp only [oneIf, hf, Option.isSome_none, Bool.false_eq_true, if_false]
      omega
    | some s =>
      by_cases hs : s = ""
      · have hc : collectWith f t (p :: rest) = collectWith f t rest := by
          simp [collectWith, List.filterMap_cons, hf, hs]
        rw [hc]
        simp only [oneIf, hf, Option.isSome_some, if_true]
        omega
      · have hc : collectWith f t (p :: rest) = (p.1, t s) :: collectWith f t rest := by
          simp [collectWith, List.filterMap_cons, hf, hs]
        rw [hc, List.length_cons]
        simp only [oneIf, hf, Option.isSome_some, if_true]
        omega

theorem collectAddr_length_le (ext : PersonExtraction) :
    (collectAddr ext).length ≤ countIsSome Doc.address ext := by
  induction ext with
  | nil => exact Nat.le_refl 0
  | cons p rest ih =>
    rw [countIsSome_cons]
    cases hf : p.2.address with
    | none =>
      have hc : collectAddr (p :: rest) = collectAddr rest := by
        simp [collectAddr, List.filterMap_cons, hf]
      rw [hc]
      simp only [oneIf, hf, Option.isSome_none, Bool.false_eq_true, if_false]
      omega
    | some v =>
      by_cases hv : truthyAddrVal v = true
      · have hc : collectAddr (p :: rest) = (p.1, v) :: collectAddr rest := by
          simp [collectAddr, List.filterMap_cons, hf, hv]
        rw [hc, List.length_cons]
        simp only [oneIf, hf, Option.isSome_some, if_true]
        omega
      · have hc : collectAddr (p :: rest) = collectAddr rest := by
          simp [collectAddr, List.filterMap_cons, hf, hv]
        rw [hc]
        simp only [oneIf, hf, Option.isSome_some, if_true]
        omega

theorem three_fields_le_total (ext : PersonExtraction) :
    countIsSome Doc.full_name ext + countIsSome Doc.date_of_birth ext +
      countIsSome Doc.phone_number ext ≤ total_extracted_fields ext := by
  induction ext with
  | nil => exact Nat.le_refl 0
  | cons p rest ih =>
    rw [countIsSome_cons, countIsSome_cons, countIsSome_cons, total_cons]
    have hdoc : oneIf p.2.full_name + oneIf p.2.date_of_birth + oneIf p.2.phone_number ≤
        nonNullCount p.2 := by
      simp only [nonNullCount]
      omega
    omega

/-! ### The insufficiency gates of the comparison rules -/

theorem verify_name_match_gate (ext : PersonExtraction)
    (h : (collectStr Doc.full_name ext).length < 2) :
    verify_name_match ext =
      ⟨"FAIL", "Insufficient name data for comparison",
        sVals (collectStr Doc.full_name ext)⟩ := by
  simp only [verify_name_match]
  rw [if_pos h]

theorem verify_dob_match_gate (ext : PersonExtraction)
    (h : (collectStr Doc.date_of_birth ext).length < 2) :
    verify_dob_match ext =
      ⟨"FAIL", "Insufficient DOB data for comparison",
        sVals (collectStr Doc.date_of_birth ext)⟩ := by
  simp only [verify_dob_match]
  rw [if_pos h]

theorem verify_address_match_gate (ext : PersonExtraction)
    (h : (collectAddr ext).length < 2) :
    verify_address_match ext =
      ⟨"FAIL", "Insufficient address data for comparison", aVals (collectAddr ext)⟩ := by
  simp only [verify_address_match]
  rw [if_pos h]

theorem verify_phone_match_gate (ext : PersonExtraction)
    (h : (collectWith Doc.phone_number phoneKey ext).length < 2) :
    verify_phone_match ext =
      ⟨"FAIL", "Insufficient phone data for comparison",
        sVals (collectWith Doc.phone_number phoneKey ext)⟩ := by
  simp only [verify_phone_match]
  rw [if_pos h]

theorem verify_father_name_match_gate (ext : PersonExtraction)
    (h : (collectStr Doc.father_name ext).length < 2) :
    verify_father_name_match ext =
      ⟨"FAIL", "Insufficient father's name data for comparison",
        sVals (collectStr Doc.father_name ext)⟩ := by
  simp only [verify_father_name_match]
  rw [if_pos h]

theorem verify_pan_format_gate (ext : PersonExtraction)
    (h : (collectStr Doc.pan_number ext).isEmpty = true) :
    verify_pan_format ext =
      ⟨"FAIL", "No PAN numbers found in any document",
        sVals (collectStr Doc.pan_number ext)⟩ := by
  simp only [verify_pan_format]
  rw [if_pos h]

theorem verify_aadhaar_format_gate (ext : PersonExtraction)
    (h : (collectStr Doc.aadhaar_number ext).isEmpty = true) :
    verify_aadhaar_format ext =
      ⟨"FAIL", "No Aadhaar numbers found in any document",
        sVals (collectStr Doc.aadhaar_number ext)⟩ := by
  simp only [verify_aadhaar_format]
  rw [if_pos h]

/-! ### Every rule result's status is PASS or FAIL -/

theorem verify_name_match_status (ext : PersonExtraction) :
    (verify_name_match ext).status = "PASS" ∨ (verify_name_match ext).status = "FAIL" := by
  simp only [verify_name_match]
  split_ifs <;> simp

theorem verify_dob_match_status (ext : PersonExtraction) :
    (verify_dob_match ext).status = "PASS" ∨ (verify_dob_match ext).status = "FAIL" := by
  simp only [verify_dob_match]
  split_ifs <;> simp

theorem verify_address_match_status (ext : PersonExtraction) :
    (verify_address_match ext).status = "PASS" ∨
      (verify_address_match ext).status = "FAIL" := by
  simp only [verify_address_match]
  split_ifs <;> simp

theorem verify_phone_match_status (ext : PersonExtraction) :
    (verify_phone_match ext).status = "PASS" ∨
      (verify_phone_match ext).status = "FAIL" := by
  simp only [verify_phone_match]
  split_ifs <;> simp

theorem verify_father_name_match_status (ext : PersonExtraction) :
    (verify_father_name_match ext).status = "PASS" ∨
      (verify_father_name_match ext).status = "FAIL" := by
  simp only [verify_father_name_match]
  split_ifs <;> simp

theorem verify_pan_format_status (ext : PersonExtraction) :
    (verify_pan_format ext).status = "PASS" ∨
      (verify_pan_format ext).status = "FAIL" := by
  simp only [verify_pan_format]
  split_ifs <;> simp

theorem verify_aadhaar_format_status (ext : PersonExtraction) :
    (verify_aadhaar_format ext).status = "PASS" ∨
      (verify_aadhaar_format ext).status = "FAIL" := by
  simp only [verify_aadhaar_format]
  split_ifs <;> simp

/-! ### Frame lemmas for the extraction post-processor -/

theorem dictSet_map_fst (e : List (String × PyVal)) (k : String) (v : PyVal) :
    (dictSet e k v).map Prod.fst = e.map Prod.fst := by
  induction e with
  | nil => rfl
  | cons p t ih =>
    simp only [dictSet, List.map_cons] at *
    by_cases h : p.1 == k
    · simp only [h, if_true, ih, List.map_map]
    · simp only [h, Bool.false_eq_true, if_false, ih, List.map_map]

theorem dictGet_dictSet_ne (e : List (String × PyVal)) (k : String) (v : PyVal)
    (k' : String) (h : k' ≠ k) :
    dictGet (dictSet e k v) k' = dictGet e k' := by
  induction e with
  | nil => rfl
  | cons p t ih =>
    by_cases hpk : p.1 = k
    · have hk' : ¬(p.1 == k') = true := by
        simp only [beq_iff_eq]
        rw [hpk]
        exact fun hc => h hc.symm
      simp only [dictSet, List.map_cons, dictGet, List.find?] at *
      rw [if_pos (beq_iff_eq.mpr hpk)]
      simp only [hk', Bool.false_eq_true, if_false] at *
      exact ih
    · simp only [dictSet, List.map_cons, dictGet, List.find?] at *
      rw [if_neg (by simpa using hpk)]
      by_cases hk' : (p.1 == k') = true
      · simp [hk']
      · simp only [hk', Bool.false_eq_true, if_false] at *
        exact ih

theorem correctField_map_fst (name : String) (entries : List (String × PyVal)) :
    (correctField name entries).map Prod.fst = entries.map Prod.fst := by
  unfold correctField
  split
  · split
    · split
      · split
        · split
          · exact dictSet_map_fst _ _ _
          · rfl
        · rfl
      · rfl
    · rfl
  · rfl

theorem correctField_get_ne (name : String) (entries : List (String × PyVal))
    (k : String) (hk : k ≠ "value") :
    dictGet (correctField name entries) k = dictGet entries k := by
  unfold correctField
  split
  · split
    · split
      · split
        · split
          · exact dictGet_dictSet_ne _ _ _ _ hk
          · rfl
        · rfl
      · rfl
    · rfl
  · rfl

/-! ### Every successful date normalization is a calendar-valid ISO string -/

set_option maxHeartbeats 1000000 in
theorem processParts_valid (g1 g2 g3 out : String)
    (h : processParts g1 g2 g3 = some out) : validIso out := by
  unfold processParts at h
  dsimp only at h
  repeat' split at h
  all_goals
    first
      | exact ⟨_, _, _, (Option.some.inj h).symm, by assumption⟩
      | exact absurd h (by simp)

theorem tryPattern_valid (p : List RTok) (cleaned : List Char) (out : String)
    (h : tryPattern p cleaned = some out) : validIso out := by
  unfold tryPattern at h
  split at h
  · exact absurd h (by simp)
  · split at h
    · exact processParts_valid _ _ _ _ h
    · exact absurd h (by simp)

theorem firstPat_valid : ∀ (ps : List (List RTok)) (cleaned : List Char) (out : String),
    firstPat ps cleaned = some out → validIso out
  | [], _, _, h => absurd h (by simp [firstPat])
  | p :: ps, cleaned, out, h => by
    unfold firstPat at h
    split at h
    · exact tryPattern_valid p cleaned out (by rw [← h]; assumption)
    · exact firstPat_valid ps cleaned out h

theorem normalize_date_valid (s : Option String) (out : String)
    (h : normalize_date s = some out) : validIso out := by
  unfold normalize_date at h
  match s with
  | none => exact absurd h (by simp)
  | some r =>
    simp only at h
    split at h
    · exact absurd h (by simp)
    · exact firstPat_valid _ _ _ h

/-! ### Shared helper for the token-set rules -/

theorem dedup_normName_len (names : List (String × String)) (hne : names ≠ [])
    (hall : ∀ p ∈ names, ∀ q ∈ names, sameTokenSet p.2 q.2 = true) :
    ((names.map fun p => normName p.2).dedup).length = 1 := by
  match names, hne with
  | p0 :: rest, _ =>
    have hconst : ∀ x ∈ (p0 :: rest).map (fun p => normName p.2), x = normName p0.2 := by
      intro x hx
      obtain ⟨q, hq, rfl⟩ := List.mem_map.mp hx
      exact normName_eq_of_sameTokenSet _ _ (hall q hq p0 (List.mem_cons_self _ _))
    rw [dedup_eq_singleton_of_const (by simp) hconst]
    rfl

/-! ### Claim theorems -/

/-- C1: the spec claims every field normalizer (phone, PAN, Aadhaar, date,
name, email, employee id, address) is total over string-or-None input and
never raises.  The code refutes this: `normalize_phone`, `normalize_pan` and
`normalize_aadhaar` call the one-parameter `apply_confusion_corrections` with
two arguments, so they raise `TypeError` on every input that passes the falsy
guard — including the very inputs the repository's own tests feed them. -/
theorem normalizers_raise_typeerror :
    normalize_phone (some "9876543210") = .error typeErrorMsg ∧
    normalize_pan (some "ABCDE1234F") = .error typeErrorMsg ∧
    normalize_aadhaar (some "123456789012") = .error typeErrorMsg :=
  ⟨rfl, rfl, rfl⟩

/-- C2 counterexample: `verify_person` returns only the seven rule results;
the returned mapping has no `overall_status` key, contradicting the claim
that the returned outcome contains an overall_status field. -/
theorem verify_person_returns_no_overall_status :
    (verify_person exOneDoc).lookup "overall_status" = none := by decide

/-- C2 (amended): for every PersonExtraction, `verify_person` returns the
mapping of exactly the seven rule results (keys `rule_1_name_match` through
`rule_7_aadhaar_format`, in order), each with status PASS or FAIL; no
`overall_status` entry is included — the overall status is computed
internally but dropped, and the pipeline recomputes it separately. -/
theorem verify_person_shape (ext : PersonExtraction) :
    (verify_person ext).map Prod.fst =
      ["rule_1_name_match", "rule_2_dob_match", "rule_3_address_match",
       "rule_4_phone_match", "rule_5_father_name_match", "rule_6_pan_format",
       "rule_7_aadhaar_format"] ∧
    ∀ pr ∈ verify_person ext, pr.2.status = "PASS" ∨ pr.2.status = "FAIL" := by
  refine ⟨rfl, ?_⟩
  intro pr hpr
  simp only [verify_person, List.mem_cons, List.not_mem_nil, or_false] at hpr
  rcases hpr with rfl | rfl | rfl | rfl | rfl | rfl | rfl
  · exact verify_name_match_status ext
  · exact verify_dob_match_status ext
  · exact verify_address_match_status ext
  · exact verify_phone_match_status ext
  · exact verify_father_name_match_status ext
  · exact verify_pan_format_status ext
  · exact verify_aadhaar_format_status ext

/-- Witness for the C2 theorem at a concrete extraction. -/
theorem verify_person_shape_witness :
    (verify_person exKeyRules).map Prod.fst =
      ["rule_1_name_match", "rule_2_dob_match", "rule_3_address_match",
       "rule_4_phone_match", "rule_5_father_name_match", "rule_6_pan_format",
       "rule_7_aadhaar_format"] ∧
    ((verify_name_match exKeyRules).status = "PASS" ∨
      (verify_name_match exKeyRules).status = "FAIL") := by
  have h := verify_person_shape exKeyRules
  exact ⟨h.1, h.2 ("rule_1_name_match", verify_name_match exKeyRules)
    (by simp [verify_person])⟩

/-- C3: the claim says that with at least 5 non-null fields and both key rules
passing, the overall status produced by verification is VERIFIED even when
the PAN, Aadhaar, address and phone rules all fail.  That is exactly the
lenient status rules.py computes — but `verify_person` discards it, and the
overall status the pipeline actually reports (run_pipeline.py:189-196) is
FAILED as soon as any of the seven rules fails.  At `exKeyRules` (5 non-null
fields, name and DOB matching) the two computations disagree. -/
theorem lenient_overall_status_discarded :
    total_extracted_fields exKeyRules = 5 ∧
    (verify_name_match exKeyRules).status = "PASS" ∧
    (verify_dob_match exKeyRules).status = "PASS" ∧
    (verify_address_match exKeyRules).status = "FAIL" ∧
    (verify_phone_match exKeyRules).status = "FAIL" ∧
    (verify_pan_format exKeyRules).status = "FAIL" ∧
    (verify_aadhaar_format exKeyRules).status = "FAIL" ∧
    overall_status_lenient exKeyRules = "VERIFIED" ∧
    pipeline_overall_status (verify_person exKeyRules) = "FAILED" := by
  decide

/-- C4: below 5 non-null fields in total, the overall status is FAILED
regardless of the individual rule outcomes — both for the lenient status
computed inside `verify_person` (which forces FAILED directly) and for the
status the pipeline recomputes from the rule results (with fewer than 5
fields, at least one of the name/DOB/phone collections has fewer than 2
entries, so some rule fails its insufficiency gate). -/
theorem overall_status_floor (ext : PersonExtraction)
    (h : total_extracted_fields ext < 5) :
    overall_status_lenient ext = "FAILED" ∧
    pipeline_overall_status (verify_person ext) = "FAILED" := by
  constructor
  · simp only [overall_status_lenient]
    rw [if_pos h]
  · have hn := collectWith_length_le Doc.full_name id ext
    have hd := collectWith_length_le Doc.date_of_birth id ext
    have hp := collectWith_length_le Doc.phone_number phoneKey ext
    have ht := three_fields_le_total ext
    have hone : (collectStr Doc.full_name ext).length < 2 ∨
        (collectStr Doc.date_of_birth ext).length < 2 ∨
        (collectWith Doc.phone_number phoneKey ext).length < 2 := by
      simp only [collectStr] at *
      omega
    have hfail : ∃ pr ∈ verify_person ext, pr.2.status = "FAIL" := by
      rcases hone with h1 | h1 | h1
      · exact ⟨("rule_1_name_match", verify_name_match ext), by simp [verify_person],
          by rw [verify_name_match_gate ext h1]⟩
      · exact ⟨("rule_2_dob_match", verify_dob_match ext), by simp [verify_person],
          by rw [verify_dob_match_gate ext h1]⟩
      · exact ⟨("rule_4_phone_match", verify_phone_match ext), by simp [verify_person],
          by rw [verify_phone_match_gate ext h1]⟩
    have hany : (verify_person ext).any (fun p => p.2.status == "FAIL") = true := by
      rw [List.any_eq_true]
      obtain ⟨pr, hmem, hst⟩ := hfail
      exact ⟨pr, hmem, by simpa [beq_iff_eq] using hst⟩
    simp only [pipeline_overall_status]
    rw [if_pos hany]

/-- Witness for the C4 theorem at a one-document extraction with no fields. -/
theorem overall_status_floor_witness :
    overall_status_lenient exOneDoc = "FAILED" ∧
    pipeline_overall_status (verify_person exOneDoc) = "FAILED" :=
  overall_status_floor exOneDoc (by decide)

/-- C5 counterexample: the claim says every one of the seven rules fails with
an "insufficient" reason when fewer than 2 documents carry the target field.
But `verify_pan_format` passes with a single well-formed PAN in a single
document (exactly the repository's own `test_pan_format_rule`). -/
theorem single_pan_passes_without_two_documents :
    countIsSome Doc.pan_number exSinglePan < 2 ∧
    (verify_pan_format exSinglePan).status = "PASS" ∧
    (verify_pan_format exSinglePan).reason = "All PAN numbers have valid format" := by
  decide

/-- C5 (amended): the five cross-document comparison rules (name, DOB,
address, phone, father's name) return FAIL with a reason mentioning
"insufficient" whenever fewer than 2 documents carry a non-null value for
the target field; the two format rules (PAN, Aadhaar) instead fail — with a
"No ... found" reason that does not mention "insufficient" — only when zero
documents carry a value, and with exactly one value present they validate
it. -/
theorem rule_insufficiency_gates (ext : PersonExtraction) :
    (countIsSome Doc.full_name ext < 2 →
      (verify_name_match ext).status = "FAIL" ∧
      mentionsInsufficient (verify_name_match ext).reason = true) ∧
    (countIsSome Doc.date_of_birth ext < 2 →
      (verify_dob_match ext).status = "FAIL" ∧
      mentionsInsufficient (verify_dob_match ext).reason = true) ∧
    (countIsSome Doc.address ext < 2 →
      (verify_address_match ext).status = "FAIL" ∧
      mentionsInsufficient (verify_address_match ext).reason = true) ∧
    (countIsSome Doc.phone_number ext < 2 →
      (verify_phone_match ext).status = "FAIL" ∧
      mentionsInsufficient (verify_phone_match ext).reason = true) ∧
    (countIsSome Doc.father_name ext < 2 →
      (verify_father_name_match ext).status = "FAIL" ∧
      mentionsInsufficient (verify_father_name_match ext).reason = true) ∧
    (countIsSome Doc.pan_number ext = 0 →
      (verify_pan_format ext).status = "FAIL" ∧
      (verify_pan_format ext).reason = "No PAN numbers found in any document" ∧
      mentionsInsufficient (verify_pan_format ext).reason = false) ∧
    (countIsSome Doc.aadhaar_number ext = 0 →
      (verify_aadhaar_format ext).status = "FAIL" ∧
      (verify_aadhaar_format ext).reason = "No Aadhaar numbers found in any document" ∧
      mentionsInsufficient (verify_aadhaar_format ext).reason = false) := by
  refine ⟨?_, ?_, ?_, ?_, ?_, ?_, ?_⟩
  · intro h
    have hlt : (collectStr Doc.full_name ext).length < 2 :=
      lt_of_le_of_lt (collectWith_length_le Doc.full_name id ext) h
    rw [verify_name_match_gate ext hlt]
    refine ⟨rfl, ?_⟩
    show mentionsInsufficient "Insufficient name data for comparison" = true
    decide
  · intro h
    have hlt : (collectStr Doc.date_of_birth ext).length < 2 :=
      lt_of_le_of_lt (collectWith_length_le Doc.date_of_birth id ext) h
    rw [verify_dob_match_gate ext hlt]
    refine ⟨rfl, ?_⟩
    show mentionsInsufficient "Insufficient DOB data for comparison" = true
    decide
  · intro h
    have hlt : (collectAddr ext).length < 2 :=
      lt_of_le_of_lt (collectAddr_length_le ext) h
    rw [verify_address_match_gate ext hlt]
    refine ⟨rfl, ?_⟩
    show mentionsInsufficient "Insufficient address data for comparison" = true
    decide
  · intro h
    have hlt : (collectWith Doc.phone_number phoneKey ext).length < 2 :=
      lt_of_le_of_lt (collectWith_length_le Doc.phone_number phoneKey ext) h
    rw [verify_phone_match_gate ext hlt]
    refine ⟨rfl, ?_⟩
    show mentionsInsufficient "Insufficient phone data for comparison" = true
    decide
  · intro h
    have hlt : (collectStr Doc.father_name ext).length < 2 :=
      lt_of_le_of_lt (collectWith_length_le Doc.father_name id ext) h
    rw [verify_father_name_match_gate ext hlt]
    refine ⟨rfl, ?_⟩
    show mentionsInsufficient "Insufficient father's name data for comparison" = true
    decide
  · intro h
    have hle := collectWith_length_le Doc.pan_number id ext
    have h0 : (collectStr Doc.pan_number ext).length = 0 := by
      simp only [collectStr]
      omega
    have hemp : (collectStr Doc.pan_number ext).isEmpty = true := by
      rw [List.length_eq_zero] at h0
      rw [h0]
      rfl
    rw [verify_pan_format_gate ext hemp]
    refine ⟨rfl, rfl, ?_⟩
    show mentionsInsufficient "No PAN numbers found in any document" = false
    decide
  · intro h
    have hle := collectWith_length_le Doc.aadhaar_number id ext
    have h0 : (collectStr Doc.aadhaar_number ext).length = 0 := by
      simp only [collectStr]
      omega
    have hemp : (collectStr Doc.aadhaar_number ext).isEmpty = true := by
      rw [List.length_eq_zero] at h0
      rw [h0]
      rfl
    rw [verify_aadhaar_format_gate ext hemp]
    refine ⟨rfl, rfl, ?_⟩
    show mentionsInsufficient "No Aadhaar numbers found in any document" = false
    decide

/-- Witness for the C5 theorem at a one-document empty extraction. -/
theorem rule_insufficiency_gates_witness :
    (verify_name_match exOneDoc).status = "FAIL" ∧
    mentionsInsufficient (verify_name_match exOneDoc).reason = true ∧
    (verify_pan_format exOneDoc).status = "FAIL" := by
  have h := rule_insufficiency_gates exOneDoc
  exact ⟨(h.1 (by decide)).1, (h.1 (by decide)).2, (h.2.2.2.2.2.1 (by decide)).1⟩

/-- C6: the claim (and the repository's own test) give four phone
canonicalizations.  First, the actual `normalize_phone` raises `TypeError`
on every non-falsy input, so none of the four equations holds.  Second, even
under the evidently intended correction call (`correct_text`), the 11-digit
`"09876543210"` maps to `"+919876543210"` (drop the leading trunk `0`), not
to the claimed `"+9109876543210"`; the other three examples do hold of the
intended logic. -/
theorem phone_canonicalization_divergence :
    normalize_phone (some "123") = .error typeErrorMsg ∧
    normalize_phone_intended (some "9876543210") = some "+919876543210" ∧
    normalize_phone_intended (some "+91-9876543210") = some "+919876543210" ∧
    normalize_phone_intended (some "09876543210") = some "+919876543210" ∧
    normalize_phone_intended (some "09876543210") ≠ some "+9109876543210" ∧
    normalize_phone_intended (some "123") = none := by
  exact ⟨rfl, by decide, by decide, by decide, by decide, by decide⟩

/-- C7: `normalize_date` maps each of the listed representations of
15 August 1947 to `"1947-08-15"`, rejects the calendar-invalid
`"32-13-2020"` and the unparseable `"invalid"`, and — in general — any
accepted input produces a calendar-valid `YYYY-MM-DD` string. -/
theorem normalize_date_spec :
    normalize_date (some "15-08-1947") = some "1947-08-15" ∧
    normalize_date (some "15/08/1947") = some "1947-08-15" ∧
    normalize_date (some "1947-08-15") = some "1947-08-15" ∧
    normalize_date (some "32-13-2020") = none ∧
    normalize_date (some "invalid") = none ∧
    ∀ s out, normalize_date s = some out → validIso out := by
  exact ⟨by decide, by decide, by decide, by decide, by decide, normalize_date_valid⟩

/-- Witness for the C7 theorem: its universal part applied at the first
example. -/
theorem normalize_date_spec_witness : validIso "1947-08-15" :=
  normalize_date_spec.2.2.2.2.2 (some "15-08-1947") "1947-08-15" normalize_date_spec.1

/-- C8: `correct_text` is a total deterministic function of `(text, hint)`
(it is a Lean function, and the embedding returns a value — never an
exception); `None` and `""` return unchanged; and each hint applies exactly
the spec's per-character substitution map: the forward map for `numeric`,
the inverse map for `alpha`, and the conservative subset for any other
hint. -/
theorem correct_text_spec :
    (∀ h, correct_text none h = none) ∧
    (∀ h, correct_text (some "") h = some "") ∧
    (∀ s, correct_text (some s) (some "numeric") =
      some ⟨charwise specNumericImage s.data⟩) ∧
    (∀ s, correct_text (some s) (some "alpha") =
      some ⟨charwise specAlphaImage s.data⟩) ∧
    (∀ s h, h ≠ some "numeric" → h ≠ some "alpha" →
      correct_text (some s) h = some ⟨charwise specDefaultImage s.data⟩) := by
  refine ⟨fun _ => rfl, fun _ => rfl, ?_, ?_, ?_⟩
  · intro s
    by_cases hs : s = ""
    · subst hs
      rfl
    · simp [correct_text, hs, applyNum_eq]
  · intro s
    by_cases hs : s = ""
    · subst hs
      rfl
    · simp [correct_text, hs, applyAlpha_eq]
  · intro s h hn ha
    by_cases hs : s = ""
    · subst hs
      rfl
    · simp [correct_text, hs, hn, ha, applyDefault_eq]

/-- Witness for the C8 theorem at `"I0S"` under the three hint classes. -/
theorem correct_text_spec_witness :
    correct_text (some "I0S") (some "numeric") = some "105" ∧
    correct_text (some "I0S") (some "alpha") = some "IOS" ∧
    correct_text (some "I0S") none = some "10S" := by
  have h := correct_text_spec
  refine ⟨?_, ?_, ?_⟩
  · rw [h.2.2.1 "I0S"]
    rfl
  · rw [h.2.2.2.1 "I0S"]
    rfl
  · rw [h.2.2.2.2 "I0S" none (by decide) (by decide)]
    rfl

/-- C9: the extraction post-processor returns a fresh mapping with the same
field names in the same order; for every field whose data is a dict, the
output binds every key other than `value` to the same value as the input
(the code copies the dict before writing the corrected `value`), and
non-dict field data passes through unchanged.  The embedding is pure, so the
input mapping itself is untouched by construction. -/
theorem apply_confusion_corrections_frame (d : List (String × PyVal)) :
    ((apply_confusion_corrections d).map Prod.fst = d.map Prod.fst) ∧
    List.Forall₂
      (fun inp outp : String × PyVal =>
        outp.1 = inp.1 ∧
        match inp.2 with
        | .vdict entries => ∃ entries2, outp.2 = .vdict entries2 ∧
            entries2.map Prod.fst = entries.map Prod.fst ∧
            ∀ k, k ≠ "value" → dictGet entries2 k = dictGet entries k
        | fd => outp.2 = fd)
      d (apply_confusion_corrections d) := by
  constructor
  · induction d with
    | nil => rfl
    | cons p t ih =>
      cases hp : p.2 <;>
        simp [apply_confusion_corrections, hp, ih, List.map_cons] <;>
        simpa [apply_confusion_corrections] using ih
  · induction d with
    | nil => exact List.Forall₂.nil
    | cons p t ih =>
      have hcons : apply_confusion_corrections (p :: t) =
          (match p.2 with
           | .vdict entries => (p.1, .vdict (correctField p.1 entries))
           | fd => (p.1, fd)) :: apply_confusion_corrections t := by
        simp [apply_confusion_corrections]
      rw [hcons]
      refine List.Forall₂.cons ?_ ih
      cases hp : p.2 with
      | vdict entries =>
        refine ⟨by simp, ?_⟩
        simp only
        exact ⟨correctField p.1 entries, rfl, correctField_map_fst _ _,
          fun k hk => correctField_get_ne _ _ _ hk⟩
      | vnone => exact ⟨by simp, by simp⟩
      | vstr s => exact ⟨by simp, by simp⟩
      | obj tag => exact ⟨by simp, by simp⟩

/-- Witness for the C9 theorem at a concrete field dict: the non-`value`
keys of the corrected `full_name` dict are bound exactly as in the input. -/
theorem apply_confusion_corrections_frame_witness :
    (apply_confusion_corrections exFields).map Prod.fst = exFields.map Prod.fst ∧
    dictGet (correctField "full_name"
        [("value", PyVal.vstr "J0hn"), ("raw_context", .vstr "name: J0hn"),
         ("confidence", .vstr "high"), ("source", .vstr "regex")]) "confidence" =
      some (PyVal.vstr "high") := by
  have h := apply_confusion_corrections_frame exFields
  refine ⟨h.1, ?_⟩
  rcases h.2 with _ | ⟨⟨-, hdict⟩, -⟩
  obtain ⟨e2, he2, -, hget⟩ := hdict
  have he2' : correctField "full_name"
      [("value", PyVal.vstr "J0hn"), ("raw_context", .vstr "name: J0hn"),
       ("confidence", .vstr "high"), ("source", .vstr "regex")] = e2 :=
    PyVal.vdict.inj he2
  rw [he2', hget "confidence" (by decide)]
  rfl

/-- C10: the name-match and father's-name-match rules compare token sets of
lowercased names, so whenever at least two documents carry a (truthy) name
and all carried names have the same set of lowercase tokens — regardless of
token order or repetition — the rule reports PASS. -/
theorem name_rules_token_set_insensitive (ext : PersonExtraction) :
    (2 ≤ (collectStr Doc.full_name ext).length →
      (∀ p ∈ collectStr Doc.full_name ext, ∀ q ∈ collectStr Doc.full_name ext,
        sameTokenSet p.2 q.2 = true) →
      (verify_name_match ext).status = "PASS") ∧
    (2 ≤ (collectStr Doc.father_name ext).length →
      (∀ p ∈ collectStr Doc.father_name ext, ∀ q ∈ collectStr Doc.father_name ext,
        sameTokenSet p.2 q.2 = true) →
      (verify_father_name_match ext).status = "PASS") := by
  constructor
  · intro hlen hall
    have h1 : ((collectStr Doc.full_name ext).map fun p => normName p.2).dedup.length = 1 :=
      dedup_normName_len _
        (by intro hnil; rw [hnil] at hlen; simp at hlen) hall
    simp only [verify_name_match]
    rw [if_neg (by omega), if_pos h1]
  · intro hlen hall
    have h1 : ((collectStr Doc.father_name ext).map fun p => normName p.2).dedup.length = 1 :=
      dedup_normName_len _
        (by intro hnil; rw [hnil] at hlen; simp at hlen) hall
    simp only [verify_father_name_match]
    rw [if_neg (by omega), if_pos h1]

/-- Witness for the C10 theorem: `"John John Doe"` vs `"Doe John"` and
`"Ram Kumar Kumar"` vs `"Kumar Ram"` both PASS. -/
theorem name_rules_token_set_insensitive_witness :
    (verify_name_match exTokens).status = "PASS" ∧
    (verify_father_name_match exTokens).status = "PASS" := by
  have h := name_rules_token_set_insensitive exTokens
  exact ⟨h.1 (by decide) (by decide), h.2 (by decide) (by decide)⟩

end DocVerify
